import Mathlib

/-!
Verification of the contact-form submission handler
(`portfolio-infra/lambda/index.py`).

The handler is embedded as a pure Lean function.  External collaborators
are made explicit:

* the DynamoDB table is a `List Record` threaded through the handler,
  together with a trace of store/notification operations (`Op`);
* `json.loads`, the clock readings (`datetime.utcnow()` at the three call
  sites), `uuid.uuid4()` and the SES outcome live in an `Env` record;
* `hashlib.md5(...).hexdigest()` is implemented bit-faithfully below
  (MD5 over bytes, 32-bit arithmetic as `Nat` mod `2^32`).

Timestamps are ISO-8601 strings compared with the string order, exactly
as the DynamoDB filter expression `#ts > :time` compares them.
-/

/-! ## MD5 (`hashlib.md5(...).hexdigest()`) -/

/-- UTF-8 encoding of a single character (Python's `str.encode()`). -/
def charUtf8 (c : Char) : List Nat :=
  let n := c.toNat
  if n < 0x80 then [n]
  else if n < 0x800 then [0xC0 + n / 0x40, 0x80 + n % 0x40]
  else if n < 0x10000 then
    [0xE0 + n / 0x1000, 0x80 + n / 0x40 % 0x40, 0x80 + n % 0x40]
  else
    [0xF0 + n / 0x40000, 0x80 + n / 0x1000 % 0x40, 0x80 + n / 0x40 % 0x40,
     0x80 + n % 0x40]

/-- UTF-8 bytes of a string (Python's `str.encode()`). -/
def strToBytes (s : String) : List Nat :=
  (s.data.map charUtf8).flatten

/-- 32-bit left rotation on `Nat` (values below `2^32`). -/
def rotl32 (x s : Nat) : Nat :=
  (x * 2 ^ s + x / 2 ^ (32 - s)) % 2 ^ 32

/-- 32-bit bitwise complement. -/
def bnot32 (x : Nat) : Nat := x ^^^ 0xFFFFFFFF

/-- MD5 sine-derived round constants. -/
def md5K : List Nat :=
  [0xd76aa478, 0xe8c7b756, 0x242070db, 0xc1bdceee,
   0xf57c0faf, 0x4787c62a, 0xa8304613, 0xfd469501,
   0x698098d8, 0x8b44f7af, 0xffff5bb1, 0x895cd7be,
   0x6b901122, 0xfd987193, 0xa679438e, 0x49b40821,
   0xf61e2562, 0xc040b340, 0x265e5a51, 0xe9b6c7aa,
   0xd62f105d, 0x02441453, 0xd8a1e681, 0xe7d3fbc8,
   0x21e1cde6, 0xc33707d6, 0xf4d50d87, 0x455a14ed,
   0xa9e3e905, 0xfcefa3f8, 0x676f02d9, 0x8d2a4c8a,
   0xfffa3942, 0x8771f681, 0x6d9d6122, 0xfde5380c,
   0xa4beea44, 0x4bdecfa9, 0xf6bb4b60, 0xbebfbc70,
   0x289b7ec6, 0xeaa127fa, 0xd4ef3085, 0x04881d05,
   0xd9d4d039, 0xe6db99e5, 0x1fa27cf8, 0xc4ac5665,
   0xf4292244, 0x432aff97, 0xab9423a7, 0xfc93a039,
   0x655b59c3, 0x8f0ccc92, 0xffeff47d, 0x85845dd1,
   0x6fa87e4f, 0xfe2ce6e0, 0xa3014314, 0x4e0811a1,
   0xf7537e82, 0xbd3af235, 0x2ad7d2bb, 0xeb86d391]

/-- MD5 per-round left-rotation amounts. -/
def md5S : List Nat :=
  [7, 12, 17, 22, 7, 12, 17, 22, 7, 12, 17, 22, 7, 12, 17, 22,
   5, 9, 14, 20, 5, 9, 14, 20, 5, 9, 14, 20, 5, 9, 14, 20,
   4, 11, 16, 23, 4, 11, 16, 23, 4, 11, 16, 23, 4, 11, 16, 23,
   6, 10, 15, 21, 6, 10, 15, 21, 6, 10, 15, 21, 6, 10, 15, 21]

/-- Little-endian bytes (8 of them) of the 64-bit message length. -/
def lenLE8 (n : Nat) : List Nat :=
  (List.range 8).map (fun i => n / 2 ^ (8 * i) % 256)

/-- MD5 padding: append `0x80`, zeros to 56 mod 64, then the bit length. -/
def md5pad (msg : List Nat) : List Nat :=
  msg ++ 0x80 :: List.replicate ((119 - msg.length % 64) % 64) 0
      ++ lenLE8 (msg.length * 8)

/-- The sixteen little-endian 32-bit words of one 64-byte chunk. -/
def chunkWords (c : List Nat) : List Nat :=
  (List.range 16).map (fun j =>
    c.getD (4 * j) 0 + 256 * c.getD (4 * j + 1) 0 +
    65536 * c.getD (4 * j + 2) 0 + 16777216 * c.getD (4 * j + 3) 0)

/-- One MD5 round: update the `(a, b, c, d)` state with round index `i`. -/
def md5round (M : List Nat) (st : Nat × Nat × Nat × Nat) (i : Nat) :
    Nat × Nat × Nat × Nat :=
  let a := st.1
  let b := st.2.1
  let c := st.2.2.1
  let d := st.2.2.2
  let fg : Nat × Nat :=
    if i < 16 then ((b &&& c) ||| (bnot32 b &&& d), i)
    else if i < 32 then ((d &&& b) ||| (bnot32 d &&& c), (5 * i + 1) % 16)
    else if i < 48 then (b ^^^ c ^^^ d, (3 * i + 5) % 16)
    else (c ^^^ (b ||| bnot32 d), (7 * i) % 16)
  let tmp := (fg.1 + a + md5K.getD i 0 + M.getD fg.2 0) % 2 ^ 32
  (d, (b + rotl32 tmp (md5S.getD i 0)) % 2 ^ 32, b, c)

/-- Process one 64-byte chunk, folding the 64 rounds and re-adding. -/
def md5chunk (st : Nat × Nat × Nat × Nat) (c : List Nat) :
    Nat × Nat × Nat × Nat :=
  let r := (List.range 64).foldl (md5round (chunkWords c)) st
  ((st.1 + r.1) % 2 ^ 32, (st.2.1 + r.2.1) % 2 ^ 32,
   (st.2.2.1 + r.2.2.1) % 2 ^ 32, (st.2.2.2 + r.2.2.2) % 2 ^ 32)

/-- Lower-case hexadecimal digit. -/
def hexDigit (n : Nat) : Char :=
  if n < 10 then Char.ofNat (48 + n) else Char.ofNat (87 + n)

/-- Two-digit lower-case hex of a byte. -/
def byteHex (b : Nat) : String :=
  String.mk [hexDigit (b / 16 % 16), hexDigit (b % 16)]

/-- Hex of a 32-bit word, little-endian byte order (as MD5 prints it). -/
def wordHexLE (w : Nat) : String :=
  byteHex (w % 256) ++ byteHex (w / 256 % 256) ++
  byteHex (w / 65536 % 256) ++ byteHex (w / 16777216 % 256)

/-- MD5 hex digest of a byte list (`hashlib.md5(bs).hexdigest()`). -/
def md5hex (bs : List Nat) : String :=
  let padded := md5pad bs
  let chunks := (List.range (padded.length / 64)).map
    (fun i => (padded.drop (64 * i)).take 64)
  let st := chunks.foldl md5chunk (0x67452301, 0xefcdab89, 0x98badcfe, 0x10325476)
  wordHexLE st.1 ++ wordHexLE st.2.1 ++ wordHexLE st.2.2.1 ++ wordHexLE st.2.2.2

set_option maxRecDepth 10000 in
/-- Standard MD5 test vector, anchoring the implementation. -/
theorem md5hex_abc :
    md5hex (strToBytes "abc") = "900150983cd24fb0d6963f7d28e17f72" := by
  decide

/-! ## Data model -/

/-- A JSON value appearing in a request body mapping (only the shapes the
claims need: strings, numbers, null). -/
inductive PyVal where
  | str (s : String)
  | num (n : Int)
  | null
deriving DecidableEq, Repr

/-- The `body` slot of the inbound event: a raw JSON-encoded string, a
pre-parsed mapping, or absent. -/
inductive BodyVal where
  | str (s : String)
  | dict (m : List (String × PyVal))
  | absent
deriving DecidableEq, Repr

/-- The inbound event: the two nested source-address slots of
`requestContext`, the `headers` mapping, and the `body`. -/
structure Event where
  httpSourceIp : Option String
  identitySourceIp : Option String
  headers : List (String × String)
  body : BodyVal
deriving DecidableEq, Repr

/-- A persisted submission record (DynamoDB item shape written by the
handler). -/
structure Record where
  MessageId : String
  Timestamp : String
  Name : String
  Email : String
  Message : String
  ContentHash : String
  SourceIP : String
deriving DecidableEq, Repr

/-- External-world inputs of one invocation: the behaviour of
`json.loads` (`none` = raises), the three `datetime.utcnow()`-derived
ISO strings, the fresh `uuid.uuid4()` string, and whether
`ses.send_email` succeeds. -/
structure Env where
  jsonLoads : String → Option (List (String × PyVal))
  one_hour_ago : String
  five_mins_ago : String
  now : String
  uuid : String
  sesOk : Bool

/-- The structured response the handler returns. -/
structure Resp where
  statusCode : Nat
  headers : List (String × String)
  body : String
deriving DecidableEq, Repr

/-- Store / notification operations, recorded as a trace. -/
inductive Op where
  | queryIp (ip time : String)
  | queryHash (h time : String)
  | put (r : Record)
  | send (name email message : String)
deriving DecidableEq, Repr

/-- Result of one invocation: response, store after, operation trace. -/
structure HOut where
  resp : Resp
  store : List Record
  ops : List Op
deriving DecidableEq, Repr

/-! ## Python string primitives

Executable models of the Python string methods the handler uses
(`str.strip`, `str.lower`, `split(',')[0]`) and of the string order used
by the DynamoDB filter `#ts > :time` (lexicographic on code points;
identical to byte order on the ASCII ISO timestamps involved). -/

/-- The ASCII whitespace characters `str.strip()` removes. -/
def pyWhitespaceChar (c : Char) : Bool :=
  c == ' ' || c == '\t' || c == '\n' || c == '\r' || c == '\x0b' || c == '\x0c'

/-- Python `s.strip()`. -/
def pyStrip (s : String) : String :=
  String.mk
    (((s.data.dropWhile pyWhitespaceChar).reverse.dropWhile
        pyWhitespaceChar).reverse)

/-- ASCII lower-casing of one character (`str.lower`, ASCII fragment). -/
def pyCharLower (c : Char) : Char :=
  if 65 ≤ c.toNat && c.toNat ≤ 90 then Char.ofNat (c.toNat + 32) else c

/-- Python `s.lower()`. -/
def pyLower (s : String) : String := String.mk (s.data.map pyCharLower)

/-- Python `s.split(',')[0]`: the prefix before the first comma. -/
def firstCommaToken (s : String) : String :=
  String.mk (s.data.takeWhile (fun c => c != ','))

/-- Strict lexicographic order on character lists. -/
def lexLt : List Char → List Char → Bool
  | [], [] => false
  | [], _ :: _ => true
  | _ :: _, [] => false
  | a :: as, b :: bs =>
    if a.toNat < b.toNat then true
    else if a.toNat == b.toNat then lexLt as bs else false

/-- Strict string order (`a < b`), as DynamoDB compares `Timestamp`s. -/
def strLtB (a b : String) : Bool := lexLt a.data b.data

/-! ## Handler embedding -/

/-- Python truthiness of an optional string (`None` and `""` are falsy). -/
def truthy : Option String → Bool
  | none => false
  | some s => !(s == "")

/-- Python `a or b` on optional strings. -/
def pyOr (a b : Option String) : Option String :=
  if truthy a then a else b

/-- `get_source_ip(event)`: HTTP API v2 slot, then REST identity slot,
then the `X-Forwarded-For` header (first comma token, stripped), else
`'unknown'`. -/
def get_source_ip (event : Event) : String :=
  let ip1 := event.httpSourceIp
  let ip2 := if truthy ip1 then ip1 else event.identitySourceIp
  let ip3 :=
    if truthy ip2 then ip2
    else
      let forwarded := pyOr (event.headers.lookup "x-forwarded-for")
        (event.headers.lookup "X-Forwarded-For")
      if truthy forwarded then
        some (pyStrip (firstCommaToken (forwarded.getD "")))
      else ip2
  if truthy ip3 then ip3.getD "" else "unknown"

/-- `body.get(key, '')` followed by use as a string: a present non-string
value raises (`.strip()` on it is an `AttributeError`). -/
def getStr (m : List (String × PyVal)) (k : String) : Except Unit String :=
  match m.lookup k with
  | none => .ok ""
  | some (.str s) => .ok s
  | some _ => .error ()

/-- Step 1: obtain the body mapping.  A string body goes through
`json.loads` (which may raise); otherwise the body is used as-is,
defaulting to the empty mapping. -/
def parseBody (env : Env) (event : Event) :
    Except Unit (List (String × PyVal)) :=
  match event.body with
  | .str s =>
      match env.jsonLoads s with
      | some m => .ok m
      | none => .error ()
  | .dict m => .ok m
  | .absent => .ok []

/-- Extraction of the three fields, normalized exactly as the handler
does: `name.strip()`, `email.strip().lower()`, `message.strip()`. -/
def extractFields (m : List (String × PyVal)) :
    Except Unit (String × String × String) :=
  match getStr m "name" with
  | .error e => .error e
  | .ok n =>
    match getStr m "email" with
    | .error e => .error e
    | .ok em =>
      match getStr m "message" with
      | .error e => .error e
      | .ok ms => .ok (pyStrip n, pyLower (pyStrip em), pyStrip ms)

def MAX_SUBMISSIONS_PER_IP : Nat := 10

def MAX_SUBMISSIONS_PER_EMAIL : Nat := 5

/-- The DynamoDB query on `SourceIPIndex` with filter `#ts > :time`
(string comparison, as DynamoDB compares ISO strings). -/
def queryBySourceIP (store : List Record) (ip time : String) : List Record :=
  store.filter (fun r => r.SourceIP == ip && strLtB time r.Timestamp)

/-- The DynamoDB query on `ContentHashIndex` with filter `#ts > :time`. -/
def queryByContentHash (store : List Record) (h time : String) : List Record :=
  store.filter (fun r => r.ContentHash == h && strLtB time r.Timestamp)

/-- `content_hash = hashlib.md5(f"{email}{message.lower()}".encode()).hexdigest()`. -/
def contentHash (email message : String) : String :=
  md5hex (strToBytes (email ++ pyLower message))

/-- `json.dumps({'status': s, 'message': m})` for plain ASCII contents. -/
def jsonSM (status msg : String) : String :=
  "\x7b\"status\": \"" ++ status ++ "\", \"message\": \"" ++ msg ++ "\"\x7d"

/-- The headers attached to every non-200 response. -/
def corsBase : List (String × String) :=
  [("Content-Type", "application/json"), ("Access-Control-Allow-Origin", "*")]

/-- The richer header set of the 200 response. -/
def headers200 : List (String × String) :=
  [("Content-Type", "application/json"), ("Access-Control-Allow-Origin", "*"),
   ("Access-Control-Allow-Methods", "POST, OPTIONS"),
   ("Access-Control-Allow-Headers", "Content-Type")]

def resp400 : Resp :=
  ⟨400, corsBase, jsonSM "error" "Missing required fields"⟩

def resp429ip : Resp :=
  ⟨429, corsBase, jsonSM "error" "Too many submissions. Please try again later."⟩

def resp429email : Resp :=
  ⟨429, corsBase,
   jsonSM "error" "Too many submissions from this email. Please try again later."⟩

def resp429dup : Resp :=
  ⟨429, corsBase,
   jsonSM "error" "Duplicate submission detected. Please wait a few minutes."⟩

def resp200 (email_sent : Bool) : Resp :=
  ⟨200, headers200,
   jsonSM "success" (if email_sent then "Message sent!" else "Message received!")⟩

def resp500 : Resp :=
  ⟨500, corsBase, jsonSM "error" "Internal server error"⟩

/-- Items of the IP-rate query (step 3). -/
def ipItems (env : Env) (event : Event) (store : List Record) : List Record :=
  queryBySourceIP store (get_source_ip event) env.one_hour_ago

/-- `email_count` (step 4): counted over the items returned by the IP
query, `item.get('Email', '').lower() == email`. -/
def emailCount (env : Env) (event : Event) (store : List Record)
    (email : String) : Nat :=
  ((ipItems env event store).filter
    (fun r => pyLower r.Email == email)).length

/-- Items of the duplicate-content query (step 5). -/
def dupItems (env : Env) (store : List Record) (email message : String) :
    List Record :=
  queryByContentHash store (contentHash email message) env.five_mins_ago

/-- The record written by step 6. -/
def newItem (env : Env) (event : Event) (name email message : String) :
    Record :=
  ⟨env.uuid, env.now, name, email, message, contentHash email message,
   get_source_ip event⟩

/-- Steps 2–8 of the handler, after fields were extracted successfully
(no exception can occur from here on; the SES failure is caught). -/
def processValid (env : Env) (event : Event) (store : List Record)
    (name email message : String) : HOut :=
  if name == "" || email == "" || message == "" then
    ⟨resp400, store, []⟩
  else if MAX_SUBMISSIONS_PER_IP ≤ (ipItems env event store).length then
    ⟨resp429ip, store, [.queryIp (get_source_ip event) env.one_hour_ago]⟩
  else if MAX_SUBMISSIONS_PER_EMAIL ≤ emailCount env event store email then
    ⟨resp429email, store, [.queryIp (get_source_ip event) env.one_hour_ago]⟩
  else if (dupItems env store email message).isEmpty = false then
    ⟨resp429dup, store,
     [.queryIp (get_source_ip event) env.one_hour_ago,
      .queryHash (contentHash email message) env.five_mins_ago]⟩
  else
    ⟨resp200 env.sesOk, store ++ [newItem env event name email message],
     [.queryIp (get_source_ip event) env.one_hour_ago,
      .queryHash (contentHash email message) env.five_mins_ago,
      .put (newItem env event name email message),
      .send name email message]⟩

/-- `lambda_handler(event, context)`: the outer `try/except` collapses
any raised exception into the generic 500 response; exceptions can only
arise while parsing the body or reading the fields. -/
def lambda_handler (env : Env) (event : Event) (store : List Record) : HOut :=
  match parseBody env event with
  | .error _ => ⟨resp500, store, []⟩
  | .ok body =>
    match extractFields body with
    | .error _ => ⟨resp500, store, []⟩
    | .ok (name, email, message) =>
        processValid env event store name email message

/-! ## Claim theorems -/

/-- C4: a request in which `name`, `email` or `message` is missing or
empty after trimming gets status 400 with body message
"Missing required fields", and no store query or write occurs
(empty operation trace, store unchanged). -/
theorem missing_fields_rejected (env : Env) (event : Event)
    (store : List Record) (body : List (String × PyVal))
    (name email message : String)
    (hb : parseBody env event = .ok body)
    (hf : extractFields body = .ok (name, email, message))
    (hmiss : (name == "" || email == "" || message == "") = true) :
    lambda_handler env event store =
      ⟨⟨400, corsBase, jsonSM "error" "Missing required fields"⟩, store, []⟩ := by
  simp [lambda_handler, hb, hf, processValid, hmiss, resp400]

/-- Witness for C4 at a concrete request with a blank name. -/
theorem missing_fields_rejected_witness :
    lambda_handler
      ⟨fun _ => none, "2025-01-01T11:00:00", "2025-01-01T11:55:00",
       "2025-01-01T12:00:00", "uuid-1", true⟩
      ⟨some "1.2.3.4", none, [],
       .dict [("name", .str "  "), ("email", .str "a@b.c"),
              ("message", .str "Hi")]⟩ [] =
      ⟨⟨400, corsBase, jsonSM "error" "Missing required fields"⟩, [], []⟩ :=
  missing_fields_rejected _ _ [] _ "" "a@b.c" "Hi" rfl rfl (by decide)

/-- Shared concrete environment for witnesses. -/
def envW : Env :=
  ⟨fun _ => none, "2025-01-01T11:00:00", "2025-01-01T11:55:00",
   "2025-01-01T12:00:00", "uuid-1", true⟩

/-- A stored record from origin `1.2.3.4`, inside the trailing hour. -/
def recW : Record :=
  ⟨"id-0", "2025-01-01T11:30:00", "Ann", "other@x.y", "hi there",
   "0123456789abcdef0123456789abcdef", "1.2.3.4"⟩

/-- A well-formed pre-parsed body. -/
def bodyW : List (String × PyVal) :=
  [("name", .str "Alice"), ("email", .str "A@B.c"), ("message", .str "Hello")]

/-- An event from origin `1.2.3.4` carrying `bodyW`. -/
def evW : Event := ⟨some "1.2.3.4", none, [], .dict bodyW⟩

/-- C1: a request whose derived origin address already has at least 10
records inside the trailing hour (the `SourceIPIndex` query result) is
rejected with 429 and the origin-limit message; the store is unchanged
and the trace holds no write. -/
theorem origin_rate_limited (env : Env) (event : Event)
    (store : List Record) (body : List (String × PyVal))
    (name email message : String)
    (hb : parseBody env event = .ok body)
    (hf : extractFields body = .ok (name, email, message))
    (hn : (name == "") = false) (he : (email == "") = false)
    (hm : (message == "") = false)
    (hcount : 10 ≤
      (queryBySourceIP store (get_source_ip event) env.one_hour_ago).length) :
    lambda_handler env event store =
      ⟨⟨429, corsBase,
        jsonSM "error" "Too many submissions. Please try again later."⟩,
       store, [.queryIp (get_source_ip event) env.one_hour_ago]⟩ := by
  simp [lambda_handler, hb, hf, processValid, hn, he, hm, resp429ip,
    ipItems, MAX_SUBMISSIONS_PER_IP, hcount]

/-- Witness for C1: ten prior records from the same address. -/
theorem origin_rate_limited_witness :
    lambda_handler envW evW (List.replicate 10 recW) =
      ⟨⟨429, corsBase,
        jsonSM "error" "Too many submissions. Please try again later."⟩,
       List.replicate 10 recW,
       [.queryIp "1.2.3.4" "2025-01-01T11:00:00"]⟩ :=
  origin_rate_limited envW evW (List.replicate 10 recW) bodyW
    "Alice" "a@b.c" "Hello" rfl rfl rfl rfl rfl (by decide)

/-- C2: the email rate limit is evaluated over the result set of the
origin query: when fewer than 10 records match the origin but at least 5
of *those* records carry the submitted (lower-cased) email, the handler
answers 429 with the email-limit message and writes nothing.  The second
conjunct shows the counted set is scoped by the origin address —
a record only counts if its `SourceIP` equals the derived origin — so
records with the same email but another origin do not count. -/
theorem email_rate_limited (env : Env) (event : Event)
    (store : List Record) (body : List (String × PyVal))
    (name email message : String)
    (hb : parseBody env event = .ok body)
    (hf : extractFields body = .ok (name, email, message))
    (hn : (name == "") = false) (he : (email == "") = false)
    (hm : (message == "") = false)
    (hip : (queryBySourceIP store (get_source_ip event)
      env.one_hour_ago).length < 10)
    (hmail : 5 ≤ emailCount env event store email) :
    lambda_handler env event store =
      ⟨⟨429, corsBase,
        jsonSM "error"
          "Too many submissions from this email. Please try again later."⟩,
       store, [.queryIp (get_source_ip event) env.one_hour_ago]⟩
    ∧ emailCount env event store email =
      (store.filter (fun r => pyLower r.Email == email &&
        (r.SourceIP == get_source_ip event &&
         strLtB env.one_hour_ago r.Timestamp))).length := by
  have hip' : ¬ (MAX_SUBMISSIONS_PER_IP ≤ (ipItems env event store).length) := by
    simp [MAX_SUBMISSIONS_PER_IP, ipItems]; omega
  refine ⟨?_, ?_⟩
  · simp [lambda_handler, hb, hf, processValid, hn, he, hm, hip',
      resp429email, MAX_SUBMISSIONS_PER_EMAIL, hmail]
  · simp [emailCount, ipItems, queryBySourceIP, List.filter_filter]

/-- Five records from origin `1.2.3.4` with email `a@b.c` (mixed case). -/
def recW2 : Record :=
  ⟨"id-1", "2025-01-01T11:40:00", "Al", "A@b.C", "earlier text",
   "00000000000000000000000000000000", "1.2.3.4"⟩

/-- Witness for C2: five same-email records from the same origin. -/
theorem email_rate_limited_witness :
    lambda_handler envW evW (List.replicate 5 recW2) =
      ⟨⟨429, corsBase,
        jsonSM "error"
          "Too many submissions from this email. Please try again later."⟩,
       List.replicate 5 recW2,
       [.queryIp "1.2.3.4" "2025-01-01T11:00:00"]⟩
    ∧ emailCount envW evW (List.replicate 5 recW2) "a@b.c" =
      ((List.replicate 5 recW2).filter (fun r => pyLower r.Email == "a@b.c" &&
        (r.SourceIP == get_source_ip evW &&
         strLtB envW.one_hour_ago r.Timestamp))).length :=
  email_rate_limited envW evW (List.replicate 5 recW2) bodyW
    "Alice" "a@b.c" "Hello" rfl rfl rfl rfl rfl (by decide) (by decide)

/-- C5: a valid request passing all three limit checks appends exactly
one record — fresh id, the acceptance-time clock reading, trimmed name,
trimmed lower-cased email, trimmed message, the content fingerprint and
the derived origin — and the response is 200 with status "success".
The second conjunct shows the fresh id differs from every stored id;
the third recovers the trimming/normalisation from the raw fields. -/
theorem accepted_submission_persisted (env : Env) (event : Event)
    (store : List Record) (body : List (String × PyVal))
    (name email message : String)
    (hb : parseBody env event = .ok body)
    (hf : extractFields body = .ok (name, email, message))
    (hn : (name == "") = false) (he : (email == "") = false)
    (hm : (message == "") = false)
    (hip : (queryBySourceIP store (get_source_ip event)
      env.one_hour_ago).length < 10)
    (hmail : emailCount env event store email < 5)
    (hdup : (dupItems env store email message).isEmpty = true)
    (hid : env.uuid ∉ store.map Record.MessageId) :
    lambda_handler env event store =
      ⟨⟨200, headers200,
        jsonSM "success"
          (if env.sesOk then "Message sent!" else "Message received!")⟩,
       store ++ [⟨env.uuid, env.now, name, email, message,
                 contentHash email message, get_source_ip event⟩],
       [.queryIp (get_source_ip event) env.one_hour_ago,
        .queryHash (contentHash email message) env.five_mins_ago,
        .put ⟨env.uuid, env.now, name, email, message,
              contentHash email message, get_source_ip event⟩,
        .send name email message]⟩
    ∧ (∀ r ∈ store, r.MessageId ≠ env.uuid)
    ∧ (∀ rn re rm, getStr body "name" = .ok rn →
        getStr body "email" = .ok re → getStr body "message" = .ok rm →
        name = pyStrip rn ∧ email = pyLower (pyStrip re) ∧
        message = pyStrip rm) := by
  have hip' : ¬ (MAX_SUBMISSIONS_PER_IP ≤ (ipItems env event store).length) := by
    simp [MAX_SUBMISSIONS_PER_IP, ipItems]; omega
  have hmail' : ¬ (MAX_SUBMISSIONS_PER_EMAIL ≤ emailCount env event store email) := by
    simp [MAX_SUBMISSIONS_PER_EMAIL]; omega
  refine ⟨?_, ?_, ?_⟩
  · simp [lambda_handler, hb, hf, processValid, hn, he, hm, hip', hmail',
      hdup, resp200, newItem]
  · intro r hr hcontra
    exact hid (List.mem_map.mpr ⟨r, hr, hcontra⟩)
  · intro rn re rm h1 h2 h3
    simp [extractFields, h1, h2, h3] at hf
    exact ⟨hf.1.symm, hf.2.1.symm, hf.2.2.symm⟩

/-- Witness for C5: a fresh submission against an empty store. -/
theorem accepted_submission_persisted_witness :
    lambda_handler envW evW [] =
      ⟨⟨200, headers200,
        jsonSM "success"
          (if envW.sesOk then "Message sent!" else "Message received!")⟩,
       [] ++ [⟨envW.uuid, envW.now, "Alice", "a@b.c", "Hello",
              contentHash "a@b.c" "Hello", get_source_ip evW⟩],
       [.queryIp (get_source_ip evW) envW.one_hour_ago,
        .queryHash (contentHash "a@b.c" "Hello") envW.five_mins_ago,
        .put ⟨envW.uuid, envW.now, "Alice", "a@b.c", "Hello",
              contentHash "a@b.c" "Hello", get_source_ip evW⟩,
        .send "Alice" "a@b.c" "Hello"]⟩
    ∧ (∀ r ∈ ([] : List Record), r.MessageId ≠ envW.uuid)
    ∧ (∀ rn re rm, getStr bodyW "name" = .ok rn →
        getStr bodyW "email" = .ok re → getStr bodyW "message" = .ok rm →
        "Alice" = pyStrip rn ∧ "a@b.c" = pyLower (pyStrip re) ∧
        "Hello" = pyStrip rm) :=
  accepted_submission_persisted envW evW [] bodyW "Alice" "a@b.c" "Hello"
    rfl rfl rfl rfl rfl (by decide) (by decide) (by decide) (by decide)

/-- C6: once the record is written, the SES outcome cannot change the
accepted result: for either notification outcome the record is in the
store and the status is 200 with body status "success"; the body message
is "Message received!" exactly when the send failed and "Message sent!"
exactly when it succeeded. -/
theorem notification_fault_keeps_success (env : Env) (event : Event)
    (store : List Record) (body : List (String × PyVal))
    (name email message : String)
    (hb : parseBody env event = .ok body)
    (hf : extractFields body = .ok (name, email, message))
    (hn : (name == "") = false) (he : (email == "") = false)
    (hm : (message == "") = false)
    (hip : (queryBySourceIP store (get_source_ip event)
      env.one_hour_ago).length < 10)
    (hmail : emailCount env event store email < 5)
    (hdup : (dupItems env store email message).isEmpty = true) :
    (lambda_handler env event store).store =
      store ++ [newItem env event name email message]
    ∧ Op.put (newItem env event name email message) ∈
        (lambda_handler env event store).ops
    ∧ (lambda_handler env event store).resp.statusCode = 200
    ∧ (env.sesOk = false →
        (lambda_handler env event store).resp.body =
          jsonSM "success" "Message received!")
    ∧ (env.sesOk = true →
        (lambda_handler env event store).resp.body =
          jsonSM "success" "Message sent!") := by
  have hip' : ¬ (MAX_SUBMISSIONS_PER_IP ≤ (ipItems env event store).length) := by
    simp [MAX_SUBMISSIONS_PER_IP, ipItems]; omega
  have hmail' : ¬ (MAX_SUBMISSIONS_PER_EMAIL ≤ emailCount env event store email) := by
    simp [MAX_SUBMISSIONS_PER_EMAIL]; omega
  have hrun : lambda_handler env event store =
      ⟨resp200 env.sesOk, store ++ [newItem env event name email message],
       [.queryIp (get_source_ip event) env.one_hour_ago,
        .queryHash (contentHash email message) env.five_mins_ago,
        .put (newItem env event name email message),
        .send name email message]⟩ := by
    simp [lambda_handler, hb, hf, processValid, hn, he, hm, hip', hmail', hdup]
  refine ⟨by simp [hrun], by simp [hrun], by simp [hrun, resp200], ?_, ?_⟩
  · intro hses; simp [hrun, resp200, hses]
  · intro hses; simp [hrun, resp200, hses]

/-- The witness environment in which `ses.send_email` raises. -/
def envWF : Env :=
  ⟨fun _ => none, "2025-01-01T11:00:00", "2025-01-01T11:55:00",
   "2025-01-01T12:00:00", "uuid-1", false⟩

/-- Witness for C6: the SES send fails, yet the submission is accepted
with "Message received!". -/
theorem notification_fault_keeps_success_witness :
    (lambda_handler envWF evW []).store =
      [] ++ [newItem envWF evW "Alice" "a@b.c" "Hello"]
    ∧ Op.put (newItem envWF evW "Alice" "a@b.c" "Hello") ∈
        (lambda_handler envWF evW []).ops
    ∧ (lambda_handler envWF evW []).resp.statusCode = 200
    ∧ (envWF.sesOk = false →
        (lambda_handler envWF evW []).resp.body =
          jsonSM "success" "Message received!")
    ∧ (envWF.sesOk = true →
        (lambda_handler envWF evW []).resp.body =
          jsonSM "success" "Message sent!") :=
  notification_fault_keeps_success envWF evW [] bodyW "Alice" "a@b.c" "Hello"
    rfl rfl rfl rfl rfl (by decide) (by decide) (by decide)

set_option maxRecDepth 10000 in
/-- C3: if a submission is accepted and a second one carries the same
normalized email and the same lower-cased message, and the accepted
record's timestamp is strictly after (now − 5 minutes) of the second
run, the second is rejected with 429 and the duplicate message and
writes nothing.  The fingerprint is a pure function of
(email, lower-cased message) — so re-casing the message cannot evade the
check — while changing the message content changes the fingerprint
(shown at a concrete input). -/
theorem duplicate_content_rejected
    (env1 env2 : Env) (ev1 ev2 : Event) (store : List Record)
    (b1 b2 : List (String × PyVal)) (n1 e1 m1 n2 e2 m2 : String)
    (hb1 : parseBody env1 ev1 = .ok b1)
    (hf1 : extractFields b1 = .ok (n1, e1, m1))
    (hn1 : (n1 == "") = false) (he1 : (e1 == "") = false)
    (hm1 : (m1 == "") = false)
    (hip1 : (queryBySourceIP store (get_source_ip ev1)
      env1.one_hour_ago).length < 10)
    (hmail1 : emailCount env1 ev1 store e1 < 5)
    (hdup1 : (dupItems env1 store e1 m1).isEmpty = true)
    (hb2 : parseBody env2 ev2 = .ok b2)
    (hf2 : extractFields b2 = .ok (n2, e2, m2))
    (hn2 : (n2 == "") = false) (he2 : (e2 == "") = false)
    (hm2 : (m2 == "") = false)
    (heqe : e2 = e1) (heqm : pyLower m2 = pyLower m1)
    (htime : strLtB env2.five_mins_ago env1.now = true)
    (hip2 : (queryBySourceIP (store ++ [newItem env1 ev1 n1 e1 m1])
      (get_source_ip ev2) env2.one_hour_ago).length < 10)
    (hmail2 : emailCount env2 ev2 (store ++ [newItem env1 ev1 n1 e1 m1])
      e2 < 5) :
    (lambda_handler env1 ev1 store).store =
      store ++ [newItem env1 ev1 n1 e1 m1]
    ∧ (lambda_handler env1 ev1 store).resp.statusCode = 200
    ∧ lambda_handler env2 ev2 (store ++ [newItem env1 ev1 n1 e1 m1]) =
        ⟨⟨429, corsBase,
          jsonSM "error"
            "Duplicate submission detected. Please wait a few minutes."⟩,
         store ++ [newItem env1 ev1 n1 e1 m1],
         [.queryIp (get_source_ip ev2) env2.one_hour_ago,
          .queryHash (contentHash e2 m2) env2.five_mins_ago]⟩
    ∧ (∀ e m mx, pyLower m = pyLower mx → contentHash e m = contentHash e mx)
    ∧ contentHash "a@b.c" "Hello" ≠ contentHash "a@b.c" "Hello!" := by
  have hip1' : ¬ (MAX_SUBMISSIONS_PER_IP ≤ (ipItems env1 ev1 store).length) := by
    simp [MAX_SUBMISSIONS_PER_IP, ipItems]; omega
  have hmail1' : ¬ (MAX_SUBMISSIONS_PER_EMAIL ≤ emailCount env1 ev1 store e1) := by
    simp [MAX_SUBMISSIONS_PER_EMAIL]; omega
  have hrun1 : lambda_handler env1 ev1 store =
      ⟨resp200 env1.sesOk, store ++ [newItem env1 ev1 n1 e1 m1],
       [.queryIp (get_source_ip ev1) env1.one_hour_ago,
        .queryHash (contentHash e1 m1) env1.five_mins_ago,
        .put (newItem env1 ev1 n1 e1 m1),
        .send n1 e1 m1]⟩ := by
    simp [lambda_handler, hb1, hf1, processValid, hn1, he1, hm1, hip1',
      hmail1', hdup1]
  have hch : contentHash e2 m2 = contentHash e1 m1 := by
    simp [contentHash, heqe, heqm]
  have hip2' : ¬ (MAX_SUBMISSIONS_PER_IP ≤
      (ipItems env2 ev2 (store ++ [newItem env1 ev1 n1 e1 m1])).length) := by
    simp [MAX_SUBMISSIONS_PER_IP, ipItems]; omega
  have hmail2' : ¬ (MAX_SUBMISSIONS_PER_EMAIL ≤
      emailCount env2 ev2 (store ++ [newItem env1 ev1 n1 e1 m1]) e2) := by
    simp [MAX_SUBMISSIONS_PER_EMAIL]; omega
  have hdup2 : (dupItems env2 (store ++ [newItem env1 ev1 n1 e1 m1])
      e2 m2).isEmpty = false := by
    simp [dupItems, queryByContentHash, List.filter_append, hch,
      List.isEmpty_iff, newItem, htime]
  refine ⟨by simp [hrun1], by simp [hrun1, resp200], ?_, ?_, ?_⟩
  · simp [lambda_handler, hb2, hf2, processValid, hn2, he2, hm2, hip2',
      hmail2', hdup2, resp429dup]
  · intro e m mx h
    simp [contentHash, h]
  · decide

/-- The environment of the witnessing second invocation, two minutes
after `envW`'s. -/
def envW2 : Env :=
  ⟨fun _ => none, "2025-01-01T11:02:00", "2025-01-01T11:57:00",
   "2025-01-01T12:02:00", "uuid-2", true⟩

/-- The witnessing second request: same email and message up to casing. -/
def bodyW2 : List (String × PyVal) :=
  [("name", .str "Bob"), ("email", .str " A@B.C "),
   ("message", .str "HELLO")]

/-- The witnessing second event. -/
def evW2 : Event := ⟨some "5.6.7.8", none, [], .dict bodyW2⟩

set_option maxRecDepth 10000 in
/-- Witness for C3: an accepted submission followed two minutes later by
a re-cased copy of the same content from another address. -/
theorem duplicate_content_rejected_witness :
    (lambda_handler envW evW []).store =
      [] ++ [newItem envW evW "Alice" "a@b.c" "Hello"]
    ∧ (lambda_handler envW evW []).resp.statusCode = 200
    ∧ lambda_handler envW2 evW2 ([] ++ [newItem envW evW "Alice" "a@b.c" "Hello"]) =
        ⟨⟨429, corsBase,
          jsonSM "error"
            "Duplicate submission detected. Please wait a few minutes."⟩,
         [] ++ [newItem envW evW "Alice" "a@b.c" "Hello"],
         [.queryIp (get_source_ip evW2) envW2.one_hour_ago,
          .queryHash (contentHash "a@b.c" "HELLO") envW2.five_mins_ago]⟩
    ∧ (∀ e m mx, pyLower m = pyLower mx → contentHash e m = contentHash e mx)
    ∧ contentHash "a@b.c" "Hello" ≠ contentHash "a@b.c" "Hello!" :=
  duplicate_content_rejected envW envW2 evW evW2 [] bodyW bodyW2
    "Alice" "a@b.c" "Hello" "Bob" "a@b.c" "HELLO"
    rfl rfl rfl rfl rfl (by decide) (by decide) (by decide)
    rfl rfl rfl rfl rfl rfl (by decide) (by decide)
    (by decide) (by decide)

/-- C7: no exception escapes: every invocation produces one of the six
structured responses, and in particular a string body that `json.loads`
rejects yields exactly the generic 500 body, with the store untouched
and no operation performed. -/
theorem no_fault_escapes (env : Env) (event : Event) (store : List Record) :
    ((lambda_handler env event store).resp = resp500 ∨
     (lambda_handler env event store).resp = resp400 ∨
     (lambda_handler env event store).resp = resp429ip ∨
     (lambda_handler env event store).resp = resp429email ∨
     (lambda_handler env event store).resp = resp429dup ∨
     (lambda_handler env event store).resp = resp200 env.sesOk)
    ∧ (∀ s, event.body = .str s → env.jsonLoads s = none →
        lambda_handler env event store =
          ⟨⟨500, corsBase, jsonSM "error" "Internal server error"⟩,
           store, []⟩) := by
  constructor
  · cases hpb : parseBody env event with
    | error e => simp [lambda_handler, hpb]
    | ok body =>
      cases hef : extractFields body with
      | error e => simp [lambda_handler, hpb, hef]
      | ok t =>
        obtain ⟨n, em, ms⟩ := t
        simp only [lambda_handler, hpb, hef]
        unfold processValid
        split
        · simp
        · split
          · simp
          · split
            · simp
            · split
              · simp
              · simp
  · intro s hs hj
    simp [lambda_handler, parseBody, hs, hj, resp500]

/-- Witness for C7: a body that is a string but not valid JSON. -/
theorem no_fault_escapes_witness :
    lambda_handler envW ⟨some "1.2.3.4", none, [], .str "not json"⟩ [] =
      ⟨⟨500, corsBase, jsonSM "error" "Internal server error"⟩, [], []⟩ :=
  (no_fault_escapes envW ⟨some "1.2.3.4", none, [], .str "not json"⟩ []).2
    "not json" rfl rfl

/-- C8: the origin address is derived by priority: the HTTP-context
source address when truthy; else the identity source address when
truthy; else the first comma token of the forwarded-for header,
stripped; and when none of these yields a non-empty address the origin
is the literal "unknown". -/
theorem origin_address_priority (ev : Event) :
    (∀ s, ev.httpSourceIp = some s → (s == "") = false →
      get_source_ip ev = s)
    ∧ (∀ s, truthy ev.httpSourceIp = false → ev.identitySourceIp = some s →
        (s == "") = false → get_source_ip ev = s)
    ∧ (∀ f, truthy ev.httpSourceIp = false →
        truthy ev.identitySourceIp = false →
        pyOr (ev.headers.lookup "x-forwarded-for")
          (ev.headers.lookup "X-Forwarded-For") = some f →
        (f == "") = false →
        (pyStrip (firstCommaToken f) == "") = false →
        get_source_ip ev = pyStrip (firstCommaToken f))
    ∧ (truthy ev.httpSourceIp = false →
        truthy ev.identitySourceIp = false →
        truthy (pyOr (ev.headers.lookup "x-forwarded-for")
          (ev.headers.lookup "X-Forwarded-For")) = false →
        get_source_ip ev = "unknown")
    ∧ (∀ f, truthy ev.httpSourceIp = false →
        truthy ev.identitySourceIp = false →
        pyOr (ev.headers.lookup "x-forwarded-for")
          (ev.headers.lookup "X-Forwarded-For") = some f →
        (f == "") = false →
        (pyStrip (firstCommaToken f) == "") = true →
        get_source_ip ev = "unknown") := by
  have truthy_some : ∀ s : String, truthy (some s) = !(s == "") :=
    fun _ => rfl
  refine ⟨?_, ?_, ?_, ?_, ?_⟩
  · intro s h hs
    simp [get_source_ip, h, truthy_some, hs]
  · intro s h1 h2 hs
    simp [get_source_ip, h1, h2, truthy_some, hs]
  · intro f h1 h2 hf hfe hte
    simp [get_source_ip, h1, h2, hf, truthy_some, hfe, hte]
  · intro h1 h2 h3
    simp [get_source_ip, h1, h2, h3]
  · intro f h1 h2 hf hfe hte
    simp [get_source_ip, h1, h2, hf, truthy_some, hfe, hte]

/-- Witness for C8: no context addresses; a forwarded-for header whose
first comma token strips to `5.6.7.8`. -/
theorem origin_address_priority_witness :
    get_source_ip
      ⟨none, some "", [("x-forwarded-for", " 5.6.7.8 , 9.9.9.9")], .absent⟩ =
      pyStrip (firstCommaToken " 5.6.7.8 , 9.9.9.9") :=
  (origin_address_priority
    ⟨none, some "", [("x-forwarded-for", " 5.6.7.8 , 9.9.9.9")], .absent⟩).2.2.1
    " 5.6.7.8 , 9.9.9.9" rfl rfl rfl rfl rfl

/-- A per-key field read fails exactly when the key is present with a
non-string value. -/
theorem getStr_error_iff (m : List (String × PyVal)) (k : String) :
    getStr m k = .error () ↔
    ∃ v, m.lookup k = some v ∧ ∀ s, v ≠ .str s := by
  unfold getStr
  cases h : m.lookup k with
  | none => simp
  | some v => cases v <;> simp

/-- Field extraction fails exactly when one of the three reads fails. -/
theorem extractFields_error_iff (m : List (String × PyVal)) :
    extractFields m = .error () ↔
    (getStr m "name" = .error () ∨ getStr m "email" = .error () ∨
     getStr m "message" = .error ()) := by
  unfold extractFields
  cases h1 : getStr m "name" with
  | error e => cases e; simp [h1]
  | ok n =>
    cases h2 : getStr m "email" with
    | error e => cases e; simp [h1, h2]
    | ok em =>
      cases h3 : getStr m "message" with
      | error e => cases e; simp [h1, h2, h3]
      | ok ms => simp [h1, h2, h3]

/-- C9: a pre-parsed body mapping that binds `name`, `email` or
`message` to a non-string value produces the generic 500 internal-error
response (with nothing queried or written), not the 400 validation
response; the final conjunct characterises the failing bodies as exactly
those with a non-string value under one of the three keys. -/
theorem nonstring_field_internal_error (env : Env) (event : Event)
    (store : List Record) (m : List (String × PyVal))
    (hev : event.body = .dict m)
    (herr : extractFields m = .error ()) :
    lambda_handler env event store =
      ⟨⟨500, corsBase, jsonSM "error" "Internal server error"⟩, store, []⟩
    ∧ (lambda_handler env event store).resp.statusCode ≠ 400
    ∧ (∀ mx : List (String × PyVal), extractFields mx = .error () ↔
        ∃ k v, k ∈ (["name", "email", "message"] : List String) ∧
          mx.lookup k = some v ∧ ∀ s, v ≠ .str s) := by
  have h1 : lambda_handler env event store =
      ⟨⟨500, corsBase, jsonSM "error" "Internal server error"⟩, store, []⟩ := by
    simp [lambda_handler, parseBody, hev, herr, resp500]
  refine ⟨h1, by simp [h1], ?_⟩
  intro mx
  rw [extractFields_error_iff]
  simp only [getStr_error_iff]
  constructor
  · rintro (⟨v, hv, hs⟩ | ⟨v, hv, hs⟩ | ⟨v, hv, hs⟩)
    · exact ⟨"name", v, by simp, hv, hs⟩
    · exact ⟨"email", v, by simp, hv, hs⟩
    · exact ⟨"message", v, by simp, hv, hs⟩
  · rintro ⟨k, v, hk, hv, hs⟩
    simp only [List.mem_cons, List.not_mem_nil, or_false] at hk
    rcases hk with rfl | rfl | rfl
    · exact Or.inl ⟨v, hv, hs⟩
    · exact Or.inr (Or.inl ⟨v, hv, hs⟩)
    · exact Or.inr (Or.inr ⟨v, hv, hs⟩)

/-- A body binding `email` to a number. -/
def bodyW9 : List (String × PyVal) :=
  [("name", .str "Bob"), ("email", .num 5), ("message", .str "x")]

/-- Witness for C9: `email` bound to the number 5 yields the 500 body. -/
theorem nonstring_field_internal_error_witness :
    lambda_handler envW ⟨some "1.2.3.4", none, [], .dict bodyW9⟩ [] =
      ⟨⟨500, corsBase, jsonSM "error" "Internal server error"⟩, [], []⟩
    ∧ (lambda_handler envW ⟨some "1.2.3.4", none, [], .dict bodyW9⟩ []).resp.statusCode ≠ 400
    ∧ (∀ mx : List (String × PyVal), extractFields mx = .error () ↔
        ∃ k v, k ∈ (["name", "email", "message"] : List String) ∧
          mx.lookup k = some v ∧ ∀ s, v ≠ .str s) :=
  nonstring_field_internal_error envW
    ⟨some "1.2.3.4", none, [], .dict bodyW9⟩ [] bodyW9 rfl rfl

/-- The stored record of a first submission with email `ab`, message `c`. -/
def recW10 : Record :=
  ⟨"id-9", "2025-01-01T11:58:00", "Ann", "ab", "c",
   contentHash "ab" "c", "7.7.7.7"⟩

/-- A second submission with email `a` and message `bc`. -/
def bodyW10 : List (String × PyVal) :=
  [("name", .str "Bob"), ("email", .str "a"), ("message", .str "bc")]

/-- The event carrying `bodyW10` from a fresh address. -/
def evW10 : Event := ⟨some "1.2.3.4", none, [], .dict bodyW10⟩

set_option maxRecDepth 10000 in
/-- C10: the fingerprint concatenates email and lower-cased message with
no separator, so distinct (email, message) pairs can collide: email `ab`
message `c` and email `a` message `bc` hash identically, and a request
with the latter content is rejected as a duplicate of a stored record
with the former. -/
theorem contentHash_concatenation_collision :
    contentHash "ab" "c" = contentHash "a" "bc"
    ∧ ("ab" : String) ≠ "a" ∧ ("c" : String) ≠ "bc"
    ∧ lambda_handler envW evW10 [recW10] =
        ⟨⟨429, corsBase,
          jsonSM "error"
            "Duplicate submission detected. Please wait a few minutes."⟩,
         [recW10],
         [.queryIp "1.2.3.4" envW.one_hour_ago,
          .queryHash (contentHash "a" "bc") envW.five_mins_ago]⟩ := by
  refine ⟨?_, by decide, by decide, ?_⟩
  · decide
  · decide
